import Mathlib

/-!
Verification development for the OCR post-processing scripts
`remove_furigana.py` and `remove_ocr_textlayer.py`.

The Python code is shallowly embedded: JSON items become structures whose
optional fields are `Option`s (a missing key, and for these fields a JSON
null, are both `none`), Python floats become `ℚ`, Python ints become `ℤ`
or `ℕ`, and a Python list index that can raise `IndexError` becomes an
`Option`-valued lookup.  A batch of OCR documents is a
`List (Option Document)`: `none` stands for a file whose JSON failed to
parse.  The filesystem effects of `rebuild_from_images` are modelled as an
explicit state record driven by booleans saying which step succeeds.
-/

/-- Span of an OCR item: character offset and length into the page text
(`line_span["offset"]`, `line_span["length"]`). -/
structure Span where
  offset : ℤ
  length : ℤ
deriving DecidableEq

/-- One OCR line as read from the JSON.  `polygon` / `boundingBox` are the two
field-name conventions tried by `get_item_poly`; `content` / `text` the two
tried by `get_item_text`; `spans` is `line.get("spans", [])`. -/
structure Line where
  polygon : Option (List ℚ)
  boundingBox : Option (List ℚ)
  content : Option String
  text : Option String
  spans : List Span
deriving DecidableEq

/-- One OCR word.  `span` is `word.get("span", {})`; a `{}` or missing span
(whose `offset` defaults to `-1` in the code) is modelled as `none`. -/
structure Word where
  polygon : Option (List ℚ)
  boundingBox : Option (List ℚ)
  content : Option String
  text : Option String
  span : Option Span
deriving DecidableEq

/-- One OCR paragraph (used only by the RAG-only mode). -/
structure Paragraph where
  content : Option String
  text : Option String
deriving DecidableEq

/-- One OCR page: `pageNumber` is a required key in the full workflow,
`unit` is `page.get("unit")`, and the item lists default to `[]`. -/
structure Page where
  pageNumber : ℤ
  unit : Option String
  lines : List Line
  words : List Word
  paragraphs : List Paragraph
deriving DecidableEq

/-- The `analyzeResult` sub-object; `pages` is `none` when the key is absent. -/
structure AnalyzeResult where
  pages : Option (List Page)
deriving DecidableEq

/-- A parsed top-level OCR JSON document with its three possible page
containers. -/
structure Document where
  pages : Option (List Page)
  analyzeResult : Option AnalyzeResult
  readResults : Option (List Page)
deriving DecidableEq

/-- Python truthiness of an optional list (`None` and `[]` are falsy). -/
def truthy_list {α : Type} (o : Option (List α)) : Bool :=
  match o with
  | some l => !l.isEmpty
  | none => false

/-- Embeds `item.get('polygon') or item.get('boundingBox')`: the first field
is returned when truthy, otherwise the second field is returned as-is. -/
def get_item_poly (polygon boundingBox : Option (List ℚ)) : Option (List ℚ) :=
  match polygon with
  | some l => if l.isEmpty then boundingBox else some l
  | none => boundingBox

/-- Embeds `item.get('content') or item.get('text')` (an empty string is
falsy). -/
def get_item_text (content text : Option String) : Option String :=
  match content with
  | some s => if s = "" then text else some s
  | none => text

/-- The polygon the code uses for a line. -/
def Line.item_poly (l : Line) : Option (List ℚ) :=
  get_item_poly l.polygon l.boundingBox

/-- The text the code uses for a line. -/
def Line.item_text (l : Line) : Option String :=
  get_item_text l.content l.text

/-- The polygon the code uses for a word. -/
def Word.item_poly (w : Word) : Option (List ℚ) :=
  get_item_poly w.polygon w.boundingBox

/-- The text the code uses for a word. -/
def Word.item_text (w : Word) : Option String :=
  get_item_text w.content w.text

/-- The elements `[polygon[i] for i in range(1, len(polygon), 2)]`: every
coordinate at an odd index. -/
def odd_index_elems : List ℚ → List ℚ
  | _ :: y :: rest => y :: odd_index_elems rest
  | _ => []

/-- Embeds `get_polygon_height`: `0` for a missing polygon or one with fewer
than 8 coordinates, otherwise `max(y_coords) - min(y_coords)` over the
odd-indexed coordinates (Python's `max`/`min` fold over the list from its
head). -/
def get_polygon_height (poly : Option (List ℚ)) : ℚ :=
  match poly with
  | none => 0
  | some polygon =>
    if polygon.length < 8 then 0
    else
      match odd_index_elems polygon with
      | [] => 0
      | y :: ys => ys.foldl max y - ys.foldl min y

/-- True when `"analyzeResult" in data` holds, its value is a dict, and it
has a `"pages"` key (no truthiness test on the value). -/
def has_analyze_pages (d : Document) : Bool :=
  match d.analyzeResult with
  | some ar => ar.pages.isSome
  | none => false

/-- Embeds `get_pages_from_json`: `pages` when truthy, otherwise
`analyzeResult["pages"]` whenever that key exists (even if its value is
empty), otherwise `readResults` when truthy, otherwise `[]`. -/
def get_pages_from_json (d : Document) : List Page :=
  if truthy_list d.pages then d.pages.getD []
  else if has_analyze_pages d then (d.analyzeResult.bind AnalyzeResult.pages).getD []
  else if truthy_list d.readResults then d.readResults.getD []
  else []

/-- Modelled from the spec: the page-extraction behaviour the claim states,
in which each of the three containers in order is returned only when
non-empty ("first non-empty match or an empty sequence"). -/
def spec_extract_pages (d : Document) : List Page :=
  if truthy_list d.pages then d.pages.getD []
  else if truthy_list (d.analyzeResult.bind AnalyzeResult.pages) then
    (d.analyzeResult.bind AnalyzeResult.pages).getD []
  else if truthy_list d.readResults then d.readResults.getD []
  else []

/-- Source constant `FURIGANA_HEIGHT_THRESHOLD_PERCENT = 70`. -/
def FURIGANA_HEIGHT_THRESHOLD_PERCENT : ℚ := 70

/-- Source constant `MAIN_TEXT_BENCHMARK_PERCENTILE = 90`. -/
def MAIN_TEXT_BENCHMARK_PERCENTILE : ℚ := 90

/-- Embeds `numpy.percentile(a, q)` with the default linear interpolation:
on the sorted data of size `n`, the virtual index is `q / 100 * (n - 1)` and
the result interpolates between the neighbouring entries. -/
def np_percentile (a : List ℚ) (q : ℚ) : ℚ :=
  let s := List.insertionSort (· ≤ ·) a
  let n := s.length
  if n = 0 then 0
  else
    let virtual : ℚ := q / 100 * ((n : ℚ) - 1)
    let lo : ℕ := (Rat.floor virtual).toNat
    let hi : ℕ := min (lo + 1) (n - 1)
    let g : ℚ := virtual - (Rat.floor virtual : ℚ)
    s.getD lo 0 + g * (s.getD hi 0 - s.getD lo 0)

/-- The lines one parsed document contributes to the pooled analysis list
(`for page in pages: all_lines.extend(page.get("lines", []))`). -/
def doc_lines (d : Document) : List Line :=
  ((get_pages_from_json d).map Page.lines).flatten

/-- The pooled `all_lines` of the batch: each parse failure (`none`) is
skipped with a warning, each parsed document contributes its lines in
order. -/
def pooled_lines : List (Option Document) → List Line
  | [] => []
  | none :: rest => pooled_lines rest
  | some d :: rest => doc_lines d ++ pooled_lines rest

/-- How many "Could not parse" warnings the analysis loop prints: one per
document whose JSON failed to parse. -/
def parse_warnings_count : List (Option Document) → ℕ
  | [] => 0
  | none :: rest => parse_warnings_count rest + 1
  | some _ :: rest => parse_warnings_count rest

/-- The array `all_heights` after `all_heights = all_heights[all_heights > 0]`:
every pooled line's polygon height, keeping only the positive ones. -/
def positive_heights (docs : List (Option Document)) : List ℚ :=
  ((pooled_lines docs).map (fun l => get_polygon_height l.item_poly)).filter
    (fun h => decide (0 < h))

/-- Outcome of the global analysis phase of `main`: whether `sys.exit(1)` is
reached, the computed `global_height_cutoff`, whether the "No valid line
heights" warning is printed, and how many parse warnings were printed. -/
structure CalibrationResult where
  fatal : Bool
  cutoff : ℚ
  no_heights_warning : Bool
  parse_warnings : ℕ
deriving DecidableEq

/-- Embeds the global analysis of `main` (lines 158-179): pool the lines of
every parseable document; exit fatally when the pool is empty; otherwise
keep the positive heights and either warn and keep cutoff `0.0`, or set
`cutoff = percentile(heights, 90) * (70 / 100)`. -/
def run_calibration (docs : List (Option Document)) : CalibrationResult :=
  if pooled_lines docs = [] then
    { fatal := true, cutoff := 0, no_heights_warning := false,
      parse_warnings := parse_warnings_count docs }
  else if positive_heights docs = [] then
    { fatal := false, cutoff := 0, no_heights_warning := true,
      parse_warnings := parse_warnings_count docs }
  else
    { fatal := false,
      cutoff := np_percentile (positive_heights docs) MAIN_TEXT_BENCHMARK_PERCENTILE *
        (FURIGANA_HEIGHT_THRESHOLD_PERCENT / 100),
      no_heights_warning := false,
      parse_warnings := parse_warnings_count docs }

/-- Embeds the `main_text_lines` filter of `process_full_workflow`: the lines
whose polygon height is at least the global cutoff. -/
def main_text_lines (height_cutoff : ℚ) (page_data : Page) : List Line :=
  page_data.lines.filter
    (fun line => decide (height_cutoff ≤ get_polygon_height line.item_poly))

/-- The list comprehension
`[get_item_text(line) for line in lines if get_item_text(line)]`. -/
def line_texts_for_rag (ls : List Line) : List String :=
  ls.filterMap (fun line =>
    match line.item_text with
    | some t => if t = "" then none else some t
    | none => none)

/-- The joined `page_text_for_rag` of one page. -/
def page_text_for_rag (height_cutoff : ℚ) (page_data : Page) : String :=
  String.intercalate "\n" (line_texts_for_rag (main_text_lines height_cutoff page_data))

/-- One entry of `content_chunks` (its `type` field is always
`"page_content"`). -/
structure Chunk where
  page_number : ℤ
  type : String
  content : String
deriving DecidableEq

/-- The chunk appended for one page, if any: the code appends only when
`page_text_for_rag` is truthy, so an empty joined text yields no chunk. -/
def page_chunk (height_cutoff : ℚ) (page_data : Page) : Option Chunk :=
  if page_text_for_rag height_cutoff page_data = "" then none
  else some { page_number := page_data.pageNumber, type := "page_content",
              content := page_text_for_rag height_cutoff page_data }

/-- The `word_start` of a word: `word.get("span", {}).get("offset", -1)`. -/
def word_start (w : Word) : ℤ :=
  match w.span with
  | some s => s.offset
  | none => -1

/-- The test `word_start >= line_start and word_start < line_end` for one
line span. -/
def word_in_line_span (w : Word) (s : Span) : Bool :=
  decide (s.offset ≤ word_start w) && decide (word_start w < s.offset + s.length)

/-- Whether the insertion loop associates the word with the line: its span
start must fall in one of the line's span intervals. -/
def word_matches_line (w : Word) (l : Line) : Bool :=
  l.spans.any (fun s => word_in_line_span w s)

/-- Python truthiness of an optional string. -/
def truthy_str (o : Option String) : Bool :=
  match o with
  | some s => !(s = "")
  | none => false

/-- The guard `if not word_poly or not word_text: continue`: the word is
inserted only when both its polygon and its text are truthy. -/
def word_insert_guard (w : Word) : Bool :=
  truthy_list w.item_poly && truthy_str w.item_text

/-- The list `[p * scale_factor for p in word_poly]`. -/
def scaled_points (word_poly : List ℚ) (scale : ℚ) : List ℚ :=
  word_poly.map (fun p => p * scale)

/-- The insertion point `fitz.Point(scaled_points[6], scaled_points[7])`:
`none` models the `IndexError` raised when the polygon has fewer than 8
coordinates. -/
def insert_point (word_poly : List ℚ) (scale : ℚ) : Option (ℚ × ℚ) :=
  match (scaled_points word_poly scale)[6]?, (scaled_points word_poly scale)[7]? with
  | some x, some y => some (x, y)
  | _, _ => none

/-- Embeds line 64: `72.0 if pages_data[0].get("unit") == "inch" else 1.0`.
The call site guarantees `pages_data` is non-empty; the `[]` case is
unreachable there. -/
def scale_factor (pages_data : List Page) : ℚ :=
  match pages_data with
  | p :: _ => if p.unit = some "inch" then 72 else 1
  | [] => 1

/-- The scale the code applies to a word found on the page at index `i` of
`pages_data`: the single `scale_factor` computed from the first page, for
every page alike. -/
def word_point_on_page (pages_data : List Page) (_i : ℕ) (word_poly : List ℚ) :
    Option (ℚ × ℚ) :=
  insert_point word_poly (scale_factor pages_data)

/-- Modelled from the spec: the scale of one page taken from that page's own
`unit` field. -/
def page_scale (p : Page) : ℚ :=
  if p.unit = some "inch" then 72 else 1

/-- Modelled from the spec: the insertion point the claim states, scaling by
the unit of the page the word is on. -/
def spec_word_point (pages_data : List Page) (i : ℕ) (word_poly : List ℚ) :
    Option (ℚ × ℚ) :=
  insert_point word_poly
    (match pages_data[i]? with
     | some p => page_scale p
     | none => 1)

/-- The first-page scale stated by the amended claim. -/
def first_page_scale (pages_data : List Page) : ℚ :=
  match pages_data.head? with
  | some p => if p.unit = some "inch" then 72 else 1
  | none => 1

/-- The odd-index coordinates of a list as the spec describes them: the
entries found at the odd indices `i` of the list. -/
def spec_y_coords (l : List ℚ) : List ℚ :=
  (List.range l.length).filterMap (fun i => if i % 2 = 1 then l[i]? else none)

/-- Filesystem state touched by `rebuild_from_images`: the content stored at
the original path, at the `.tmp.pdf` path, and at the `.bak.pdf` path
(contents are abstract tokens). -/
structure RebuildFS where
  original : ℕ
  temp : Option ℕ
  backup : Option ℕ
deriving DecidableEq

/-- Embeds `rebuild_from_images` of `remove_ocr_textlayer.py` as a state
transformer.  `build_ok` is whether opening the original and rebuilding the
pages runs without an exception, `save_ok` whether `new_doc.save` on the
temp path succeeds (`half_saved` being whatever a failed save left behind),
`move_ok` whether `shutil.move` succeeds.  Each `except` handler removes the
temp file when it exists; only the successful move replaces the original. -/
def rebuild_from_images (create_backup build_ok save_ok move_ok : Bool)
    (orig rebuilt half_saved : ℕ) : RebuildFS :=
  let fs0 : RebuildFS :=
    { original := orig, temp := none,
      backup := if create_backup then some orig else none }
  if build_ok = false then
    -- an exception before `new_doc.save`: the handler removes the temp file
    -- if present (none was written) and returns
    { fs0 with temp := none }
  else if save_ok = false then
    -- `new_doc.save` raised, possibly after a half-written temp file; the
    -- handler removes it and returns
    let fs1 := { fs0 with temp := some half_saved }
    { fs1 with temp := none }
  else
    -- the rebuilt document reached the temp path; then the second `try`
    -- moves it over the original, removing the temp file on failure
    let fs1 := { fs0 with temp := some rebuilt }
    if move_ok then { fs1 with original := rebuilt, temp := none }
    else { fs1 with temp := none }

/-! ## Concrete instances used by witnesses and counterexamples -/

/-- A word whose span starts at offset 15, as in the spec's boundary example. -/
def wC3 : Word :=
  { polygon := none, boundingBox := none, content := some "ka", text := none,
    span := some { offset := 15, length := 2 } }

/-- A line carrying the two spans of the spec's boundary example. -/
def lC3 : Line :=
  { polygon := none, boundingBox := none, content := some "base", text := none,
    spans := [{ offset := 10, length := 10 }, { offset := 20, length := 5 }] }

/-- A line with an 8-coordinate polygon of height 30. -/
def lineC1 : Line :=
  { polygon := some [0, 0, 10, 0, 10, 30, 0, 30], boundingBox := none,
    content := some "x", text := none, spans := [] }

/-- A one-document batch contributing one pooled line. -/
def batchC1 : List (Option Document) :=
  [some { pages := some [{ pageNumber := 1, unit := none, lines := [lineC1],
                           words := [], paragraphs := [] }],
          analyzeResult := none, readResults := none }]

/-- A page used as the non-empty `readResults` payload. -/
def pageC5 : Page := { pageNumber := 1, unit := none, lines := [], words := [], paragraphs := [] }

/-- A document whose `analyzeResult.pages` key is present but empty while
`readResults` is non-empty. -/
def docC5 : Document :=
  { pages := none, analyzeResult := some { pages := some [] }, readResults := some [pageC5] }

/-- A first page measured in inches. -/
def pInchC4 : Page :=
  { pageNumber := 1, unit := some "inch", lines := [], words := [], paragraphs := [] }

/-- A second page with no unit. -/
def pPlainC4 : Page :=
  { pageNumber := 2, unit := none, lines := [], words := [], paragraphs := [] }

/-- An 8-coordinate word polygon sitting at 1 everywhere. -/
def polyC4 : List ℚ := [1, 1, 1, 1, 1, 1, 1, 1]

/-- A line whose span `[10, 20)` will capture the word below. -/
def lineC9 : Line :=
  { polygon := none, boundingBox := none, content := some "main", text := none,
    spans := [{ offset := 10, length := 10 }] }

/-- A word with a truthy but 1-coordinate polygon and truthy text. -/
def wordC9 : Word :=
  { polygon := some [1], boundingBox := none, content := some "a", text := none,
    span := some { offset := 15, length := 2 } }

/-- The page holding `lineC9` and `wordC9`. -/
def pageC9 : Page :=
  { pageNumber := 1, unit := none, lines := [lineC9], words := [wordC9], paragraphs := [] }

/-- A word with a full 8-coordinate polygon. -/
def wordC9w : Word :=
  { polygon := some [1, 2, 3, 4, 5, 6, 7, 8], boundingBox := none, content := some "a",
    text := none, span := some { offset := 0, length := 1 } }

/-! ## Helper lemmas -/

/-- Folding `max` from an accumulator `max a b` pulls `a` out of the fold. -/
theorem foldl_max_comm (a b : ℚ) (l : List ℚ) :
    l.foldl max (max a b) = max a (l.foldl max b) := by
  induction l generalizing b with
  | nil => rfl
  | cons c t ih => rw [List.foldl_cons, List.foldl_cons, max_assoc, ih]

/-- Folding `min` from an accumulator `min a b` pulls `a` out of the fold. -/
theorem foldl_min_comm (a b : ℚ) (l : List ℚ) :
    l.foldl min (min a b) = min a (l.foldl min b) := by
  induction l generalizing b with
  | nil => rfl
  | cons c t ih => rw [List.foldl_cons, List.foldl_cons, min_assoc, ih]

/-- Stepping `spec_y_coords` over the first coordinate pair of a list. -/
theorem spec_y_coords_cons_cons (x y : ℚ) (rest : List ℚ) :
    spec_y_coords (x :: y :: rest) = y :: spec_y_coords rest := by
  unfold spec_y_coords
  simp only [List.length_cons]
  rw [List.range_succ_eq_map, List.range_succ_eq_map, List.map_cons, List.map_map]
  simp only [List.filterMap_cons, List.getElem?_cons_succ, List.getElem?_cons_zero,
    List.filterMap_map]
  norm_num
  refine List.filterMap_congr fun i _ => ?_
  have h2 : (i + 1 + 1) % 2 = i % 2 := by omega
  simp only [Function.comp_apply, Nat.succ_eq_add_one, List.getElem?_cons_succ, h2]

/-- The slice `polygon[1::2]` taken by the code is exactly the entries at the
odd indices of the list. -/
theorem odd_index_elems_eq_spec : ∀ l : List ℚ, odd_index_elems l = spec_y_coords l
  | [] => rfl
  | [_] => rfl
  | _ :: y :: rest => by
    rw [spec_y_coords_cons_cons, odd_index_elems]
    exact congrArg _ (odd_index_elems_eq_spec rest)

/-- Python's `max` over a non-empty list is `List.maximum`. -/
theorem maximum_eq_foldl (y : ℚ) (ys : List ℚ) :
    (y :: ys).maximum = some (ys.foldl max y) := by
  induction ys generalizing y with
  | nil =>
    rw [List.maximum_cons, List.maximum_nil]
    exact max_eq_left bot_le
  | cons z rest ih =>
    rw [List.maximum_cons, ih, List.foldl_cons, foldl_max_comm y z rest]
    exact (WithBot.coe_max y (rest.foldl max z)).symm

/-- Python's `min` over a non-empty list is `List.minimum`. -/
theorem minimum_eq_foldl (y : ℚ) (ys : List ℚ) :
    (y :: ys).minimum = some (ys.foldl min y) := by
  induction ys generalizing y with
  | nil =>
    rw [List.minimum_cons, List.minimum_nil]
    exact min_eq_left le_top
  | cons z rest ih =>
    rw [List.minimum_cons, ih, List.foldl_cons, foldl_min_comm y z rest]
    exact (WithTop.coe_min y (rest.foldl min z)).symm

/-- Indexing a scaled polygon at positions 6 and 7 stays in bounds whenever
the polygon has at least 8 coordinates. -/
theorem insert_point_of_length (poly : List ℚ) (s : ℚ) (h : 8 ≤ poly.length) :
    insert_point poly s = some (poly.getD 6 0 * s, poly.getD 7 0 * s) := by
  have h6 : poly[6]? = some (poly.getD 6 0) := by
    rw [List.getElem?_eq_getElem (by omega), List.getD_eq_getElem?_getD,
      List.getElem?_eq_getElem (by omega)]
    rfl
  have h7 : poly[7]? = some (poly.getD 7 0) := by
    rw [List.getElem?_eq_getElem (by omega), List.getD_eq_getElem?_getD,
      List.getElem?_eq_getElem (by omega)]
    rfl
  unfold insert_point scaled_points
  rw [List.getElem?_map, List.getElem?_map, h6, h7]
  rfl

/-! ## The claims -/

/-- C1: for every batch whose pooled line list is non-empty, the global
cutoff is `np_percentile` at 90 of the positive pooled heights times
`70 / 100` when some pooled line has positive height, and otherwise the
no-heights warning is emitted and the cutoff falls back to `0`. -/
theorem calibration_cutoff_spec (docs : List (Option Document))
    (h : pooled_lines docs ≠ []) :
    (run_calibration docs).cutoff =
      (if positive_heights docs = [] then 0
       else np_percentile (positive_heights docs) 90 * (70 / 100))
    ∧ ((run_calibration docs).no_heights_warning = true ↔ positive_heights docs = []) := by
  by_cases h2 : positive_heights docs = [] <;>
    simp [run_calibration, h, h2, MAIN_TEXT_BENCHMARK_PERCENTILE,
      FURIGANA_HEIGHT_THRESHOLD_PERCENT]

/-- C1 witness: a one-document batch with one pooled line of height 30. -/
theorem calibration_cutoff_spec_witness :
    pooled_lines batchC1 ≠ [] ∧
    ((run_calibration batchC1).cutoff =
      (if positive_heights batchC1 = [] then 0
       else np_percentile (positive_heights batchC1) 90 * (70 / 100))
    ∧ ((run_calibration batchC1).no_heights_warning = true ↔
        positive_heights batchC1 = [])) :=
  ⟨by decide, calibration_cutoff_spec batchC1 (by decide)⟩

/-- C2: the main-text lines of a page are exactly the lines whose polygon
height reaches the cutoff, and the page's chunk is the newline-join of their
non-empty texts, with no chunk at all when that join is empty. -/
theorem main_text_and_chunk_spec (height_cutoff : ℚ) (page_data : Page) :
    (∀ line, line ∈ main_text_lines height_cutoff page_data ↔
      line ∈ page_data.lines ∧ height_cutoff ≤ get_polygon_height line.item_poly)
    ∧ (page_chunk height_cutoff page_data = none ↔
        page_text_for_rag height_cutoff page_data = "")
    ∧ page_chunk height_cutoff page_data =
        (if String.intercalate "\n"
              (line_texts_for_rag (main_text_lines height_cutoff page_data)) = ""
         then none
         else some { page_number := page_data.pageNumber, type := "page_content",
                     content := String.intercalate "\n"
                       (line_texts_for_rag (main_text_lines height_cutoff page_data)) }) := by
  refine ⟨?_, ?_, ?_⟩
  · intro line
    simp [main_text_lines, List.mem_filter]
  · by_cases h : page_text_for_rag height_cutoff page_data = "" <;> simp [page_chunk, h]
  · rfl

/-- C3: a word whose span is present is associated with a line exactly when
its span start offset lies in `[offset, offset + length)` of one of the
line's spans. -/
theorem word_line_association_spec (w : Word) (l : Line) (s0 : Span)
    (h : w.span = some s0) :
    word_matches_line w l = true ↔
      ∃ s ∈ l.spans, s.offset ≤ s0.offset ∧ s0.offset < s.offset + s.length := by
  simp [word_matches_line, List.any_eq_true, word_in_line_span, word_start, h]

/-- C3 witness: the spec's word at offset 15 against the line with spans
`[10, 20)` and `[20, 25)`. -/
theorem word_line_association_spec_witness :
    wC3.span = some { offset := 15, length := 2 } ∧
    (word_matches_line wC3 lC3 = true ↔
      ∃ s ∈ lC3.spans, s.offset ≤ (15 : ℤ) ∧ (15 : ℤ) < s.offset + s.length) :=
  ⟨rfl, word_line_association_spec wC3 lC3 { offset := 15, length := 2 } rfl⟩

/-- C4 counterexample: on a document whose first page is in inches and whose
second page has no unit, a word on the second page is nevertheless scaled by
72, differing from the per-page scaling the claim states. -/
theorem word_scale_counterexample :
    word_point_on_page [pInchC4, pPlainC4] 1 polyC4 = some (72, 72)
    ∧ spec_word_point [pInchC4, pPlainC4] 1 polyC4 = some (1, 1)
    ∧ word_point_on_page [pInchC4, pPlainC4] 1 polyC4 ≠
        spec_word_point [pInchC4, pPlainC4] 1 polyC4 := by
  have h1 : word_point_on_page [pInchC4, pPlainC4] 1 polyC4 = some (72, 72) := by
    simp [word_point_on_page, insert_point, scaled_points, scale_factor, pInchC4, polyC4]
  have h2 : spec_word_point [pInchC4, pPlainC4] 1 polyC4 = some (1, 1) := by
    simp [spec_word_point, insert_point, scaled_points, page_scale, pPlainC4, polyC4]
  exact ⟨h1, h2, by rw [h1, h2]; decide⟩

/-- C4 amended: the insertion point of a word on any page is the polygon's
coordinates 6 and 7 each multiplied by 72 when the document's first page's
unit is `"inch"` and by 1 otherwise, the same factor for every page. -/
theorem word_scale_spec (pages_data : List Page) (i : ℕ) (word_poly : List ℚ)
    (h : 8 ≤ word_poly.length) :
    word_point_on_page pages_data i word_poly =
      some (word_poly.getD 6 0 * first_page_scale pages_data,
            word_poly.getD 7 0 * first_page_scale pages_data) := by
  have hs : scale_factor pages_data = first_page_scale pages_data := by
    cases pages_data <;> rfl
  unfold word_point_on_page
  rw [hs, insert_point_of_length word_poly _ h]

/-- C4 amended witness: a concrete 8-coordinate polygon on the second page
of an inch-calibrated document. -/
theorem word_scale_spec_witness :
    8 ≤ ([2, 3, 4, 5, 6, 7, 8, 9] : List ℚ).length ∧
    word_point_on_page [pInchC4, pPlainC4] 0 [2, 3, 4, 5, 6, 7, 8, 9] =
      some (([2, 3, 4, 5, 6, 7, 8, 9] : List ℚ).getD 6 0 *
              first_page_scale [pInchC4, pPlainC4],
            ([2, 3, 4, 5, 6, 7, 8, 9] : List ℚ).getD 7 0 *
              first_page_scale [pInchC4, pPlainC4]) :=
  ⟨by decide, word_scale_spec [pInchC4, pPlainC4] 0 [2, 3, 4, 5, 6, 7, 8, 9] (by decide)⟩

/-- C5 counterexample: with `analyzeResult.pages` present but empty and a
non-empty `readResults`, the code returns the empty sequence while the
claim's first-non-empty reading returns the `readResults` pages. -/
theorem pages_extraction_counterexample :
    get_pages_from_json docC5 = []
    ∧ spec_extract_pages docC5 = [pageC5]
    ∧ get_pages_from_json docC5 ≠ spec_extract_pages docC5 :=
  ⟨by decide, by decide, by decide⟩

/-- C5 amended: the extraction tries the three containers in order and never
raises, but while the `pages` and `readResults` branches require a non-empty
value, the `analyzeResult.pages` branch returns its value whenever the key
is present, even empty, shadowing any later `readResults`. -/
theorem pages_extraction_spec (d : Document) :
    (∀ ps, d.pages = some ps → ps ≠ [] → get_pages_from_json d = ps)
    ∧ ((d.pages = none ∨ d.pages = some []) →
        (∀ ar ps2, d.analyzeResult = some ar → ar.pages = some ps2 →
          get_pages_from_json d = ps2)
        ∧ ((d.analyzeResult = none ∨ ∃ ar, d.analyzeResult = some ar ∧ ar.pages = none) →
            (∀ rs, d.readResults = some rs → rs ≠ [] → get_pages_from_json d = rs)
            ∧ ((d.readResults = none ∨ d.readResults = some []) →
                get_pages_from_json d = []))) := by
  refine ⟨?_, ?_⟩
  · rintro ps hp hne
    rcases ps with _ | ⟨p, tl⟩
    · exact absurd rfl hne
    · simp [get_pages_from_json, truthy_list, hp]
  · rintro hpages
    have hpt : truthy_list d.pages = false := by
      rcases hpages with h | h <;> simp [truthy_list, h]
    refine ⟨?_, ?_⟩
    · rintro ar2 ps2 ha hap
      have hat : has_analyze_pages d = true := by simp [has_analyze_pages, ha, hap]
      simp [get_pages_from_json, hpt, hat, ha, hap]
    · rintro hana
      have hat : has_analyze_pages d = false := by
        rcases hana with h | ⟨ar2, ha, hap⟩
        · simp [has_analyze_pages, h]
        · simp [has_analyze_pages, ha, hap]
      refine ⟨?_, ?_⟩
      · rintro rs hr hne
        rcases rs with _ | ⟨r, tl⟩
        · exact absurd rfl hne
        · unfold get_pages_from_json
          rw [hpt, hat, hr]
          simp [truthy_list]
      · rintro hrr
        have hrt : truthy_list d.readResults = false := by
          rcases hrr with h | h <;> simp [truthy_list, h]
        simp [get_pages_from_json, hpt, hat, hrt]

/-- C6: a document storing a page sequence under the top-level `pages` key
and one storing the same sequence under `analyzeResult.pages` extract to the
same page sequence. -/
theorem pages_key_equivalence (P : List Page) :
    get_pages_from_json { pages := some P, analyzeResult := none, readResults := none } =
      get_pages_from_json
        { pages := none, analyzeResult := some { pages := some P }, readResults := none } := by
  cases P <;> rfl

/-- C7: the polygon height is 0 for a missing polygon or one with fewer than
8 coordinates, and otherwise the maximum minus the minimum of the
odd-indexed coordinates. -/
theorem polygon_height_spec (opt : Option (List ℚ)) :
    (opt = none → get_polygon_height opt = 0)
    ∧ (∀ l, opt = some l → l.length < 8 → get_polygon_height opt = 0)
    ∧ (∀ l, opt = some l → 8 ≤ l.length →
        get_polygon_height opt =
          (spec_y_coords l).maximum.unbot' 0 - (spec_y_coords l).minimum.untop' 0) := by
  refine ⟨?_, ?_, ?_⟩
  · rintro rfl; rfl
  · rintro l rfl h
    simp only [get_polygon_height]
    rw [if_pos h]
  · rintro l rfl h
    rcases l with _ | ⟨a, _ | ⟨b, rest⟩⟩
    · simp at h
    · simp at h
    · have hlen : ¬((a :: b :: rest).length < 8) := by omega
      simp only [get_polygon_height, odd_index_elems]
      rw [if_neg hlen]
      rw [spec_y_coords_cons_cons, ← odd_index_elems_eq_spec rest]
      rw [maximum_eq_foldl, minimum_eq_foldl]
      rfl

/-- C8: the analysis phase exits fatally exactly when the pooled line list
is empty, and one unparseable document only adds a warning — it contributes
no lines and changes nothing else about the calibration outcome. -/
theorem calibration_fatal_spec (docs pre post : List (Option Document)) :
    ((run_calibration docs).fatal = true ↔ pooled_lines docs = [])
    ∧ pooled_lines (pre ++ none :: post) = pooled_lines (pre ++ post)
    ∧ run_calibration (pre ++ none :: post) =
        { run_calibration (pre ++ post) with
          parse_warnings := (run_calibration (pre ++ post)).parse_warnings + 1 } := by
  have hp : ∀ pre2 : List (Option Document),
      pooled_lines (pre2 ++ none :: post) = pooled_lines (pre2 ++ post) := by
    intro pre2
    induction pre2 with
    | nil => rfl
    | cons d tl ih => cases d <;> simp [pooled_lines, ih]
  have hw : ∀ pre2 : List (Option Document),
      parse_warnings_count (pre2 ++ none :: post) =
        parse_warnings_count (pre2 ++ post) + 1 := by
    intro pre2
    induction pre2 with
    | nil => rfl
    | cons d tl ih => cases d <;> simp [parse_warnings_count, ih]
  refine ⟨?_, hp pre, ?_⟩
  · by_cases h : pooled_lines docs = [] <;> by_cases h2 : positive_heights docs = [] <;>
      simp [run_calibration, h, h2]
  · have hpos : positive_heights (pre ++ none :: post) = positive_heights (pre ++ post) := by
      simp [positive_heights, hp pre]
    unfold run_calibration
    rw [hp pre, hpos, hw pre]
    split_ifs <;> rfl

/-- C9 counterexample: a word with a truthy 1-coordinate polygon and truthy
text, lying in a main-text line's span, still sends the insertion step out
of bounds. -/
theorem word_insert_counterexample :
    word_insert_guard wordC9 = true
    ∧ wordC9 ∈ pageC9.words
    ∧ lineC9 ∈ main_text_lines 0 pageC9
    ∧ word_matches_line wordC9 lineC9 = true
    ∧ insert_point ((Word.item_poly wordC9).getD []) (scale_factor [pageC9]) = none :=
  ⟨by decide, by decide, by decide, by decide, by decide⟩

/-- C9 amended: the insertion step stays in bounds for every word that
passes the polygon-and-text guard and whose polygon has at least 8
coordinates. -/
theorem word_insert_bounds_spec (w : Word) (scale : ℚ)
    (_hg : word_insert_guard w = true)
    (hlen : 8 ≤ ((Word.item_poly w).getD []).length) :
    insert_point ((Word.item_poly w).getD []) scale =
      some (((Word.item_poly w).getD []).getD 6 0 * scale,
            ((Word.item_poly w).getD []).getD 7 0 * scale) :=
  insert_point_of_length _ _ hlen

/-- C9 amended witness: a guarded word with a full 8-coordinate polygon. -/
theorem word_insert_bounds_spec_witness :
    (word_insert_guard wordC9w = true ∧ 8 ≤ ((Word.item_poly wordC9w).getD []).length)
    ∧ insert_point ((Word.item_poly wordC9w).getD []) 1 =
        some (((Word.item_poly wordC9w).getD []).getD 6 0 * 1,
              ((Word.item_poly wordC9w).getD []).getD 7 0 * 1) :=
  ⟨⟨by decide, by decide⟩, word_insert_bounds_spec wordC9w 1 (by decide) (by decide)⟩

/-- C10: the rebuilt document replaces the original file only when the
rebuild, the save to the temp path and the move all succeed; on any earlier
failure the temp file ends up removed and the original content untouched. -/
theorem rebuild_replace_spec (create_backup build_ok save_ok move_ok : Bool)
    (orig rebuilt half_saved : ℕ) :
    rebuild_from_images create_backup build_ok save_ok move_ok orig rebuilt half_saved =
      { original := if build_ok && save_ok && move_ok then rebuilt else orig,
        temp := none,
        backup := if create_backup then some orig else none } := by
  cases build_ok <;> cases save_ok <;> cases move_ok <;> rfl
